import Mathlib

/-!
Verification of the tool-augmented conversational-loop demos
(`simple_agent.py`, `function_calling_demo.py`, `react_agent_demo.py`).

The development shallowly embeds the Python sources:
* Python string primitives used by the scripts (`str.lower`, `str.strip`,
  the `in` substring test) are modelled on `List Char` / `String`.
* Python `eval`, an external builtin, is modelled on the fragment it is
  actually exercised on by the `calculate` tools: integer and string
  literals, `+ - *` with Python typing rules, `len(...)`, parentheses.
  Inputs outside this fragment are mapped to an evaluation failure.
* The console loop shared by the three scripts is embedded as a function
  over the list of input lines; the external chat-session collaborator
  (google genai) is an oracle parameter.
* The ToolRegistry and the bounded tool-call loop of ConversationSession
  exist only in the specification, not in the scripts; they are modelled
  from the spec and marked as such.
-/

/-! ## Python string primitives -/

/-- Python whitespace characters (space, tab, newline, carriage return,
vertical tab, form feed), as used by `str.strip()`. -/
def isPyWs (c : Char) : Bool :=
  c.toNat == 32 || c.toNat == 9 || c.toNat == 10 || c.toNat == 13 ||
  c.toNat == 11 || c.toNat == 12

/-- ASCII lowering of one character, the fragment of `str.lower()` the
scripts rely on (their keyword sets are ASCII). -/
def pyLowerChar (c : Char) : Char :=
  if 65 ≤ c.toNat && c.toNat ≤ 90 then Char.ofNat (c.toNat + 32) else c

/-- Model of Python `str.lower()` on the ASCII fragment. -/
def pyLower (s : String) : String :=
  String.mk (s.data.map pyLowerChar)

/-- Drop leading Python whitespace from a character list. -/
def dropLeadWs : List Char → List Char
  | [] => []
  | c :: r => if isPyWs c then dropLeadWs r else c :: r

/-- Strip Python whitespace from both ends of a character list. -/
def stripChars (l : List Char) : List Char :=
  (dropLeadWs ((dropLeadWs l).reverse)).reverse

/-- Model of Python `str.strip()`. -/
def pyStrip (s : String) : String :=
  String.mk (stripChars s.data)

/-- `startsWithCL n h`: the character list `n` begins the character list `h`. -/
def startsWithCL : List Char → List Char → Bool
  | [], _ => true
  | _ :: _, [] => false
  | a :: as, b :: bs => a == b && startsWithCL as bs

/-- `infixCL n h`: `n` occurs contiguously inside `h`. -/
def infixCL (n : List Char) : List Char → Bool
  | [] => startsWithCL n []
  | c :: t => startsWithCL n (c :: t) || infixCL n t

/-- Model of the Python substring test `needle in hay`. -/
def strIn (needle hay : String) : Bool :=
  infixCL needle.data hay.data

/-! ## The fragment of Python `eval` exercised by the calculate tools

`eval` is a language builtin, external to the repository.  We model the
fragment of Python expressions relevant to the `calculate` tools: integer
literals, single-quoted string literals without escapes, binary `+ - *`
with Python typing rules, `len(...)` and parentheses.  Anything outside
this fragment is mapped to an evaluation failure. -/

/-- Values the modelled `eval` fragment can produce. -/
inductive PyVal
  | int (n : Int)
  | str (s : String)
deriving DecidableEq

/-- Expressions of the modelled Python fragment. -/
inductive PyExpr
  | intLit (n : Nat)
  | strLit (s : String)
  | lenCall (e : PyExpr)
  | add (a b : PyExpr)
  | sub (a b : PyExpr)
  | mul (a b : PyExpr)
deriving DecidableEq

/-- Skip leading whitespace, as the Python tokenizer does between tokens. -/
def skipWs : List Char → List Char
  | [] => []
  | c :: r => if isPyWs c then skipWs r else c :: r

/-- Read a maximal run of decimal digits. -/
def parseDigits : List Char → List Char × List Char
  | [] => ([], [])
  | c :: r =>
    if c.isDigit then
      let p := parseDigits r
      (c :: p.1, p.2)
    else ([], c :: r)

/-- Decimal value of a digit run. -/
def digitsToNat (ds : List Char) : Nat :=
  ds.foldl (fun a c => a * 10 + (c.toNat - 48)) 0

/-- Read the body of a single-quoted string literal up to the closing
quote (character 39); no escape sequences in the modelled fragment. -/
def takeStr : List Char → Option (List Char × List Char)
  | [] => none
  | c :: r =>
    if c.toNat = 39 then some ([], r)
    else
      match takeStr r with
      | some (s, r2) => some (c :: s, r2)
      | none => none

/-- Parser modes of the recursive-descent grammar
`expr := term (("+" | "-") term)* ; term := factor ("*" factor)* ;
factor := int | string | len ( expr ) | ( expr )`. -/
inductive PMode
  | expr
  | exprTail (acc : PyExpr)
  | term
  | termTail (acc : PyExpr)
  | factor

/-- Fuel-indexed recursive-descent parser for the modelled fragment.
`+ - *` associate to the left, as in Python. -/
def parseGo : Nat → PMode → List Char → Option (PyExpr × List Char)
  | 0, _, _ => none
  | Nat.succ n, PMode.expr, cs =>
    match parseGo n PMode.term cs with
    | some (t, r) => parseGo n (PMode.exprTail t) r
    | none => none
  | Nat.succ n, PMode.exprTail acc, cs =>
    match skipWs cs with
    | '+' :: r =>
      match parseGo n PMode.term r with
      | some (t, r2) => parseGo n (PMode.exprTail (PyExpr.add acc t)) r2
      | none => none
    | '-' :: r =>
      match parseGo n PMode.term r with
      | some (t, r2) => parseGo n (PMode.exprTail (PyExpr.sub acc t)) r2
      | none => none
    | r => some (acc, r)
  | Nat.succ n, PMode.term, cs =>
    match parseGo n PMode.factor cs with
    | some (f, r) => parseGo n (PMode.termTail f) r
    | none => none
  | Nat.succ n, PMode.termTail acc, cs =>
    match skipWs cs with
    | '*' :: r =>
      match parseGo n PMode.factor r with
      | some (f, r2) => parseGo n (PMode.termTail (PyExpr.mul acc f)) r2
      | none => none
    | r => some (acc, r)
  | Nat.succ n, PMode.factor, cs =>
    match skipWs cs with
    | '(' :: r =>
      match parseGo n PMode.expr r with
      | some (e, r2) =>
        match skipWs r2 with
        | ')' :: r3 => some (e, r3)
        | _ => none
      | none => none
    | 'l' :: 'e' :: 'n' :: r =>
      match skipWs r with
      | '(' :: r2 =>
        match parseGo n PMode.expr r2 with
        | some (e, r3) =>
          match skipWs r3 with
          | ')' :: r4 => some (PyExpr.lenCall e, r4)
          | _ => none
        | none => none
      | _ => none
    | c :: r =>
      if c.toNat = 39 then
        match takeStr r with
        | some (chars, r2) => some (PyExpr.strLit (String.mk chars), r2)
        | none => none
      else if c.isDigit then
        match parseDigits (c :: r) with
        | (d :: ds, r2) => some (PyExpr.intLit (digitsToNat (d :: ds)), r2)
        | ([], _) => none
      else none
    | [] => none

/-- Evaluate a parsed expression with Python typing rules: `+` adds
integers or concatenates strings, `- *` are integer-only, `len` applies
to strings. -/
def evalAst : PyExpr → Except String PyVal
  | PyExpr.intLit n => Except.ok (PyVal.int (Int.ofNat n))
  | PyExpr.strLit s => Except.ok (PyVal.str s)
  | PyExpr.lenCall e =>
    match evalAst e with
    | Except.ok (PyVal.str s) => Except.ok (PyVal.int (Int.ofNat s.data.length))
    | Except.ok (PyVal.int _) => Except.error "object of type int has no len"
    | Except.error m => Except.error m
  | PyExpr.add a b =>
    match evalAst a, evalAst b with
    | Except.ok (PyVal.int x), Except.ok (PyVal.int y) => Except.ok (PyVal.int (x + y))
    | Except.ok (PyVal.str x), Except.ok (PyVal.str y) => Except.ok (PyVal.str (x ++ y))
    | Except.error m, _ => Except.error m
    | _, Except.error m => Except.error m
    | _, _ => Except.error "unsupported operand types for +"
  | PyExpr.sub a b =>
    match evalAst a, evalAst b with
    | Except.ok (PyVal.int x), Except.ok (PyVal.int y) => Except.ok (PyVal.int (x - y))
    | Except.error m, _ => Except.error m
    | _, Except.error m => Except.error m
    | _, _ => Except.error "unsupported operand types for -"
  | PyExpr.mul a b =>
    match evalAst a, evalAst b with
    | Except.ok (PyVal.int x), Except.ok (PyVal.int y) => Except.ok (PyVal.int (x * y))
    | Except.error m, _ => Except.error m
    | _, Except.error m => Except.error m
    | _, _ => Except.error "unsupported operand types for *"

/-- Model of Python `eval` on the fragment above: parse the whole input
(with generous fuel), then evaluate; parse failures and inputs outside
the fragment become evaluation failures, mirroring the exceptions `eval`
raises on them. -/
def pyEval (s : String) : Except String PyVal :=
  match parseGo (3 * s.data.length + 3) PMode.expr s.data with
  | some (e, r) =>
    match skipWs r with
    | [] => evalAst e
    | _ => Except.error "invalid syntax"
  | none => Except.error "invalid syntax"

/-- Model of Python `str(result)` on the values the fragment produces. -/
def pyStrOfVal : PyVal → String
  | PyVal.int n => toString n
  | PyVal.str s => s

deriving instance DecidableEq for Except

example : pyEval "15 * 24" = Except.ok (PyVal.int 360) := by decide
example : pyEval "len(\x27abc\x27)" = Except.ok (PyVal.int 3) := by decide
example : pyEval "1 - 2 - 3" = Except.ok (PyVal.int (-4)) := by decide
example : pyEval "(1 + 2) * 4" = Except.ok (PyVal.int 12) := by decide
example : pyEval ")" = Except.error "invalid syntax" := by decide
example : pyEval "\x27a\x27 + \x27b\x27" = Except.ok (PyVal.str "ab") := by decide
example : pyEval "\x27a\x27 - 1" = Except.error "unsupported operand types for -" := by decide

/-! ## The calculate tools (function_calling_demo.py lines 19 to 32,
react_agent_demo.py lines 32 to 45)

Both scripts wrap `eval(expression)` in a try/except that returns
`str(result)` on success and a formatted message carrying `str(e)` on any
exception.  The try/except structure is embedded for an arbitrary
evaluator oracle `ev`; the scripts instantiate `ev` with Python `eval`,
modelled by `pyEval`. -/

/-- The body of `calculate` from function_calling_demo.py, for an
arbitrary evaluator: `try: return str(eval(expression))
except Exception as e: return f"Error: {e}"`. -/
def calcWith (ev : String → Except String PyVal) (expression : String) : String :=
  match ev expression with
  | Except.ok v => pyStrOfVal v
  | Except.error e => "Error: " ++ e

/-- The body of `calculate` from react_agent_demo.py; identical except for
the `"Calculation error: "` message prefix. -/
def calcWithReact (ev : String → Except String PyVal) (expression : String) : String :=
  match ev expression with
  | Except.ok v => pyStrOfVal v
  | Except.error e => "Calculation error: " ++ e

namespace FunctionCalling

/-- `calculate` from function_calling_demo.py, with `eval` instantiated by
the modelled fragment. -/
def calculate (expression : String) : String :=
  calcWith pyEval expression

/-- `search_info` from function_calling_demo.py: a pure formatted string. -/
def search_info (query : String) : String :=
  "Search results for \x27" ++ query ++ "\x27: [Relevant information would appear here]"

end FunctionCalling

namespace ReactDemo

/-- `calculate` from react_agent_demo.py. -/
def calculate (expression : String) : String :=
  calcWithReact pyEval expression

/-- The three canned entries of the `results` dict in `search`
(react_agent_demo.py lines 20 to 24), in insertion order. -/
def pythonDesc : String :=
  "Python is a high-level programming language created by Guido van Rossum in 1991."

/-- Canned description for the key "ai". -/
def aiDesc : String :=
  "Artificial Intelligence is the simulation of human intelligence by machines."

/-- Canned description for the key "gemini". -/
def geminiDesc : String :=
  "Gemini is Google\x27s family of multimodal AI models."

/-- The `results` dict as an ordered association list (Python dicts
preserve insertion order, and the source iterates in that order). -/
def searchResults : List (String × String) :=
  [("python", pythonDesc), ("ai", aiDesc), ("gemini", geminiDesc)]

/-- `search` from react_agent_demo.py lines 10 to 30: return the value of
the first key occurring as a substring of the lowercased query, else a
generic fallback mentioning the query twice. -/
def search (query : String) : String :=
  match searchResults.find? (fun kv => strIn kv.1 (pyLower query)) with
  | some kv => kv.2
  | none => "Search results for \x27" ++ query ++ "\x27: Information about " ++ query

end ReactDemo

/-! ## The spec's restricted arithmetic grammar (spec sections 4.2, 9)

The spec requires `calculate` to evaluate only an allow-listed grammar
over numeric literals and `+ - * / ( )`.  Any string of that grammar is
built from the characters below, so membership in this alphabet is a
necessary condition for membership in the grammar. -/

/-- Characters from which every sentence of the spec's restricted
arithmetic grammar (numeric literals and `+ - * / ( )`, with spacing) is
built. -/
def arithAlphabet : List Char :=
  ['0', '1', '2', '3', '4', '5', '6', '7', '8', '9',
   '+', '-', '*', '/', '(', ')', ' ']

/-- Necessary condition for a string to belong to the spec's restricted
arithmetic grammar: all of its characters come from the grammar's
alphabet. -/
def inArithAlphabet (s : String) : Bool :=
  s.data.all (fun c => arithAlphabet.contains c)

example : FunctionCalling.calculate "15 * 24" = "360" := by decide
example : FunctionCalling.calculate "len(\x27abc\x27)" = "3" := by decide
example : inArithAlphabet "15 * 24" = true := by decide
example : inArithAlphabet "len(\x27abc\x27)" = false := by decide
example : ReactDemo.search "Tell me about GEMINI" = ReactDemo.geminiDesc := by decide
example : ReactDemo.search "python or ai" = ReactDemo.pythonDesc := by decide
example : ReactDemo.search "paint" = ReactDemo.aiDesc := by decide

/-! ## The console loop (simple_agent.py lines 26 to 42)

The while-loop bodies of the three scripts are character-identical up to
the printed strings; we embed the loop of simple_agent.py, driving it
with the list of input lines and an oracle for the external backend. -/

/-- Message roles of the data model (spec section 3). -/
inductive Role
  | user
  | model
  | toolObs
deriving DecidableEq

/-- One history entry: role and text. -/
structure Message where
  role : Role
  text : String
deriving DecidableEq

/-- Ordered conversation history. -/
abbrev History := List Message

/-- The external backend oracle: given the session history and the new
user text, either a reply or a failure (exception) description. -/
def Backend := History → String → Except String String

/-- `if user_input.lower() in ["exit", "quit", "bye"]` from
simple_agent.py line 30. -/
def isExitLine (s : String) : Bool :=
  pyLower s == "exit" || pyLower s == "quit" || pyLower s == "bye"

/-- `if not user_input.strip()` from simple_agent.py line 34. -/
def isBlankLine (s : String) : Bool :=
  (pyStrip s).data.isEmpty

/-- Modelled from the spec: the external chat-session collaborator
(`client.chats.create` / `chat.send_message` of the google genai library)
is not part of src/.  Per spec sections 3 and 4.3, a successful send
appends the user message and the reply to the session history; a failed
send raises, leaving the history of the session intact. -/
def sendMessage (backend : Backend) (h : History) (line : String) :
    Except String (History × String) :=
  match backend h line with
  | Except.ok reply => Except.ok (h ++ [⟨Role.user, line⟩, ⟨Role.model, reply⟩], reply)
  | Except.error e => Except.error e

/-- Observable outcome of running the console loop: final session
history, console outputs in order, and the lines sent to the backend in
order. -/
structure RunResult where
  history : History
  outputs : List String
  sends : List String
deriving DecidableEq

/-- The while-loop of simple_agent.py lines 26 to 42, run on a list of
input lines: exit words terminate with a farewell, blank lines are
skipped, other lines are sent; a successful send prints the reply, a
backend exception prints an error and the loop continues. -/
def run (backend : Backend) (h : History) : List String → RunResult
  | [] => ⟨h, [], []⟩
  | line :: rest =>
    if isExitLine line then ⟨h, ["Agent: Goodbye!"], []⟩
    else if isBlankLine line then run backend h rest
    else
      match sendMessage backend h line with
      | Except.ok (h2, reply) =>
        let next := run backend h2 rest
        ⟨next.history, ("Agent: " ++ reply ++ "\n") :: next.outputs, line :: next.sends⟩
      | Except.error e =>
        let next := run backend h rest
        ⟨next.history, ("Error: " ++ e ++ "\n") :: next.outputs, line :: next.sends⟩

/-- A backend that never fails, given by its reply function. -/
def okBackend (f : History → String → String) : Backend :=
  fun h line => Except.ok (f h line)

/-- A backend whose every call raises a network failure. -/
def failBackend : Backend :=
  fun _ _ => Except.error "network unreachable"

/-- A backend that echoes the user line. -/
def echoBackend : Backend :=
  fun _ line => Except.ok line

/-- The messages a sequence of successful sent turns appends to the
session: for each line, the user message followed by the backend reply,
in turn order. -/
def expectedMsgs (f : History → String → String) (h : History) :
    List String → List Message
  | [] => []
  | line :: rest =>
    let ms : List Message := [⟨Role.user, line⟩, ⟨Role.model, f h line⟩]
    ms ++ expectedMsgs f (h ++ ms) rest

/-! ## Spec-modelled components: ConversationSession.send and ToolRegistry

The reference scripts delegate the tool-call loop to the external SDK and
pass plain function references instead of a registry; the components
below exist only in the specification. -/

namespace Spec

/-- Session-level failures of the spec's error taxonomy (section 7). -/
inductive SessionError
  | backendError (cause : String)
  | iterationBoundExceeded
deriving DecidableEq

/-- A tool-call request produced by the backend (spec section 3). -/
structure ToolCallRequest where
  name : String
  arguments : List (String × String)
deriving DecidableEq

/-- One backend round: either a final text reply or a batch of tool-call
requests (spec section 4.3). -/
inductive BackendTurnReply
  | finalText (text : String)
  | toolCalls (requests : List ToolCallRequest)

/-- Modelled from the spec: the tool-call loop of
`ConversationSession.send` (section 4.3) is absent from src/ (the scripts
delegate it to the external SDK).  Each `toolCalls` reply appends one
observation message per request and resends; `fuel` counts the remaining
allowed resend cycles, and exhausting it yields
`IterationBoundExceededError` (sections 4.3 and 7). -/
def sendLoop (backend : History → BackendTurnReply)
    (invoke : ToolCallRequest → String) :
    Nat → History → Except SessionError (History × String)
  | fuel, h =>
    match backend h with
    | BackendTurnReply.finalText t => Except.ok (h ++ [⟨Role.model, t⟩], t)
    | BackendTurnReply.toolCalls reqs =>
      match fuel with
      | 0 => Except.error SessionError.iterationBoundExceeded
      | Nat.succ n =>
        sendLoop backend invoke n
          (h ++ reqs.map fun r => ⟨Role.toolObs, invoke r⟩)

/-- Modelled from the spec: `ConversationSession.send` (section 4.3) —
append the user message, then run the tool-call loop with at most `bound`
resend cycles. -/
def send (backend : History → BackendTurnReply)
    (invoke : ToolCallRequest → String) (bound : Nat) (h : History)
    (userText : String) : Except SessionError (History × String) :=
  sendLoop backend invoke bound (h ++ [⟨Role.user, userText⟩])

/-- Configuration-time failures of the registry (spec section 7). -/
inductive RegistryError
  | duplicateTool
  | unknownTool
deriving DecidableEq

/-- Modelled from the spec: a Tool (section 3) — unique name, description,
declared input schema and executable body.  The scripts pass bare
function references to the chat configuration instead. -/
structure Tool where
  name : String
  description : String
  schema : List (String × String)
  body : List (String × String) → String

/-- Modelled from the spec: `ToolRegistry.register` (section 4.1) under
the default reject-duplicates policy; registration order is kept. -/
def register (r : List Tool) (t : Tool) : Except RegistryError (List Tool) :=
  if r.any (fun u => u.name == t.name) then Except.error RegistryError.duplicateTool
  else Except.ok (r ++ [t])

/-- Modelled from the spec: `ToolRegistry.resolve` (section 4.1). -/
def resolve (r : List Tool) (n : String) : Except RegistryError Tool :=
  match r.find? (fun u => u.name == n) with
  | some t => Except.ok t
  | none => Except.error RegistryError.unknownTool

/-- Register a sequence of tools left to right, stopping at the first
failure. -/
def registerAll (r : List Tool) : List Tool → Except RegistryError (List Tool)
  | [] => Except.ok r
  | t :: ts =>
    match register r t with
    | Except.ok r2 => registerAll r2 ts
    | Except.error e => Except.error e

/-- A registry entry for the `calculate` tool of function_calling_demo.py,
used as a concrete input below. -/
def calcTool : Tool :=
  ⟨"calculate", "Calculate a mathematical expression.",
   [("expression", "str")],
   fun args =>
     match args.find? (fun p => p.1 == "expression") with
     | some p => FunctionCalling.calculate p.2
     | none => "Error: missing argument expression"⟩

/-- A registry entry for the `search_info` tool of
function_calling_demo.py. -/
def searchInfoTool : Tool :=
  ⟨"search_info", "Search for information (simulated).",
   [("query", "str")],
   fun args =>
     match args.find? (fun p => p.1 == "query") with
     | some p => FunctionCalling.search_info p.2
     | none => "Error: missing argument query"⟩

end Spec

/-! ## Helper lemmas -/

lemma data_mk (l : List Char) : (String.mk l).data = l := rfl

lemma ws_lower_eq (c : Char) (h : isPyWs c = true) : pyLowerChar c = c := by
  unfold pyLowerChar
  split
  · rename_i hcond
    exfalso
    simp only [isPyWs, Bool.or_eq_true, beq_iff_eq] at h
    simp only [Bool.and_eq_true, decide_eq_true_eq] at hcond
    generalize c.toNat = n at h hcond
    rcases h with h | h | h | h | h | h <;> omega
  · rfl

lemma dropLead_nil (l : List Char) (h : dropLeadWs l = []) : l.all isPyWs = true := by
  induction l with
  | nil => rfl
  | cons c r ih =>
    cases hc : isPyWs c with
    | true =>
      simp only [dropLeadWs, hc, if_true] at h
      simp [hc, ih h]
    | false =>
      simp [dropLeadWs, hc] at h

lemma all_dropLead (l : List Char) : (dropLeadWs l).all isPyWs = l.all isPyWs := by
  induction l with
  | nil => rfl
  | cons c r ih =>
    cases hc : isPyWs c with
    | true => simp [dropLeadWs, hc, ih]
    | false => simp [dropLeadWs, hc]

lemma all_ws_of_blank (s : String) (hb : isBlankLine s = true) :
    s.data.all isPyWs = true := by
  unfold isBlankLine pyStrip stripChars at hb
  simp only [data_mk, List.isEmpty_eq_true, List.reverse_eq_nil_iff] at hb
  have h1 := dropLead_nil _ hb
  rw [List.all_reverse, all_dropLead] at h1
  exact h1

lemma lower_mem_ws (s : String) (hall : s.data.all isPyWs = true) :
    ∀ x ∈ (pyLower s).data, isPyWs x = true := by
  intro x hx
  simp only [pyLower, data_mk, List.mem_map] at hx
  obtain ⟨c, hc, hcx⟩ := hx
  have hcw : isPyWs c = true := List.all_eq_true.mp hall c hc
  rw [← hcx, ws_lower_eq c hcw]
  exact hcw

lemma blank_not_exit (s : String) (hb : isBlankLine s = true) :
    isExitLine s = false := by
  have hws := lower_mem_ws s (all_ws_of_blank s hb)
  have h1 : pyLower s ≠ "exit" := by
    intro h
    exact absurd (hws 'e' (by rw [h]; decide)) (by decide)
  have h2 : pyLower s ≠ "quit" := by
    intro h
    exact absurd (hws 'q' (by rw [h]; decide)) (by decide)
  have h3 : pyLower s ≠ "bye" := by
    intro h
    exact absurd (hws 'b' (by rw [h]; decide)) (by decide)
  simp only [isExitLine, Bool.or_eq_false_iff, beq_eq_false_iff_ne]
  exact ⟨⟨h1, h2⟩, h3⟩

lemma run_exit (b : Backend) (h : History) (line : String) (rest : List String)
    (hx : isExitLine line = true) :
    run b h (line :: rest) = ⟨h, ["Agent: Goodbye!"], []⟩ := by
  simp [run, hx]

lemma run_blank (b : Backend) (h : History) (line : String) (rest : List String)
    (hb : isBlankLine line = true) :
    run b h (line :: rest) = run b h rest := by
  simp [run, blank_not_exit line hb, hb]

lemma run_send_ok (b : Backend) (h : History) (line reply : String)
    (rest : List String) (hx : isExitLine line = false)
    (hb : isBlankLine line = false) (hk : b h line = Except.ok reply) :
    run b h (line :: rest) =
      ⟨(run b (h ++ [⟨Role.user, line⟩, ⟨Role.model, reply⟩]) rest).history,
       ("Agent: " ++ reply ++ "\n") ::
         (run b (h ++ [⟨Role.user, line⟩, ⟨Role.model, reply⟩]) rest).outputs,
       line :: (run b (h ++ [⟨Role.user, line⟩, ⟨Role.model, reply⟩]) rest).sends⟩ := by
  simp [run, hx, hb, sendMessage, hk]

lemma run_send_err (b : Backend) (h : History) (line e : String)
    (rest : List String) (hx : isExitLine line = false)
    (hb : isBlankLine line = false) (he : b h line = Except.error e) :
    run b h (line :: rest) =
      ⟨(run b h rest).history,
       ("Error: " ++ e ++ "\n") :: (run b h rest).outputs,
       line :: (run b h rest).sends⟩ := by
  simp [run, hx, hb, sendMessage, he]

lemma run_history_pre (b : Backend) :
    ∀ (ls : List String) (h : History), h <+: (run b h ls).history := by
  intro ls
  induction ls with
  | nil => intro h; exact List.prefix_refl h
  | cons line rest ih =>
    intro h
    cases hx : isExitLine line with
    | true =>
      simp [run_exit b h line rest hx]
    | false =>
      cases hb : isBlankLine line with
      | true =>
        rw [run_blank b h line rest hb]
        exact ih h
      | false =>
        cases hk : b h line with
        | ok reply =>
          rw [run_send_ok b h line reply rest hx hb hk]
          exact (List.prefix_append h _).trans (ih _)
        | error e =>
          rw [run_send_err b h line e rest hx hb hk]
          exact ih h

lemma run_ok_history (f : History → String → String) :
    ∀ (ls : List String) (h : History),
      (∀ s ∈ ls, isExitLine s = false ∧ isBlankLine s = false) →
      (run (okBackend f) h ls).history = h ++ expectedMsgs f h ls := by
  intro ls
  induction ls with
  | nil => intro h _; simp [run, expectedMsgs]
  | cons line rest ih =>
    intro h hl
    obtain ⟨⟨hx, hb⟩, hrest⟩ :
        (isExitLine line = false ∧ isBlankLine line = false) ∧
        ∀ s ∈ rest, isExitLine s = false ∧ isBlankLine s = false := by
      constructor
      · exact hl line (List.mem_cons_self line rest)
      · intro s hs
        exact hl s (List.mem_cons_of_mem line hs)
    have hk : okBackend f h line = Except.ok (f h line) := rfl
    rw [run_send_ok (okBackend f) h line (f h line) rest hx hb hk]
    simp only [expectedMsgs]
    exact (ih _ hrest).trans (List.append_assoc _ _ _)

lemma registerAll_ok (ts : List Spec.Tool) :
    ∀ r : List Spec.Tool, ((r ++ ts).map Spec.Tool.name).Nodup →
      Spec.registerAll r ts = Except.ok (r ++ ts) := by
  induction ts with
  | nil => intro r _; simp [Spec.registerAll]
  | cons t ts ih =>
    intro r hnd
    have hany : r.any (fun u => u.name == t.name) = false := by
      rw [List.any_eq_false]
      intro u hu hbeq
      have hname : u.name = t.name := by simpa using hbeq
      rw [List.map_append] at hnd
      have hdisj := List.disjoint_of_nodup_append hnd
      exact hdisj (List.mem_map_of_mem Spec.Tool.name hu)
        (hname ▸ List.mem_cons_self t.name (ts.map Spec.Tool.name))
    have h2 : (((r ++ [t]) ++ ts).map Spec.Tool.name).Nodup := by
      have he : (r ++ [t]) ++ ts = r ++ (t :: ts) := by simp
      rw [he]; exact hnd
    have h3 := ih (r ++ [t]) h2
    simp only [Spec.registerAll, Spec.register, hany, Bool.false_eq_true,
      if_false, h3]
    simp

lemma resolve_registered (ts : List Spec.Tool)
    (hnd : (ts.map Spec.Tool.name).Nodup) :
    ∀ t ∈ ts, Spec.resolve ts t.name = Except.ok t := by
  induction ts with
  | nil => intro t ht; simp at ht
  | cons u ts ih =>
    intro t ht
    have hnd2 : (ts.map Spec.Tool.name).Nodup :=
      (List.nodup_cons.mp hnd).2
    rcases List.mem_cons.mp ht with rfl | hts
    · simp [Spec.resolve, List.find?_cons_of_pos]
    · have hne : (u.name == t.name) = false := by
        simp only [beq_eq_false_iff_ne]
        intro hname
        exact (List.nodup_cons.mp hnd).1
          (hname ▸ List.mem_map_of_mem Spec.Tool.name hts)
      have hstep : Spec.resolve (u :: ts) t.name = Spec.resolve ts t.name := by
        simp only [Spec.resolve, List.find?_cons, hne]
      rw [hstep]
      exact ih hnd2 t hts

lemma register_dup (r : List Spec.Tool) (t : Spec.Tool)
    (hm : t.name ∈ r.map Spec.Tool.name) :
    Spec.register r t = Except.error Spec.RegistryError.duplicateTool := by
  obtain ⟨u, hu, hname⟩ := List.mem_map.mp hm
  have hany : r.any (fun v => v.name == t.name) = true := by
    rw [List.any_eq_true]
    exact ⟨u, hu, by simp [hname]⟩
  simp [Spec.register, hany]

lemma sendLoop_always_tools (backend : History → Spec.BackendTurnReply)
    (invoke : Spec.ToolCallRequest → String)
    (halways : ∀ h2, ∃ reqs,
      backend h2 = Spec.BackendTurnReply.toolCalls reqs) :
    ∀ (fuel : Nat) (h : History),
      Spec.sendLoop backend invoke fuel h =
        Except.error Spec.SessionError.iterationBoundExceeded := by
  intro fuel
  induction fuel with
  | zero =>
    intro h
    obtain ⟨reqs, hr⟩ := halways h
    simp [Spec.sendLoop, hr]
  | succ n ih =>
    intro h
    obtain ⟨reqs, hr⟩ := halways h
    simp [Spec.sendLoop, hr, ih]

/-! ## Claim theorems -/

/-- C1: counterexample to the claim that the calculate tool evaluates its
expression string only with the restricted arithmetic grammar over
numeric literals and + - * / ( ).  The input len('abc') lies outside that
grammar — it uses letters and quote characters, absent from the grammar's
alphabet — yet `calculate` successfully evaluates it to "3", the behavior
of the general-purpose Python `eval` the source calls, not of a
restricted arithmetic evaluator (which would reject the input). -/
theorem calculate_evaluates_beyond_arith_grammar :
    FunctionCalling.calculate "len(\x27abc\x27)" = "3" ∧
    inArithAlphabet "len(\x27abc\x27)" = false :=
  ⟨by decide, by decide⟩

/-- C2: any failure the evaluator raises inside a calculate tool body is
caught and converted into a failure-description result — for every
evaluator behavior, both tool bodies return an ordinary string (nothing
propagates to the caller) and the textual description of the exception is
embedded verbatim after the fixed prefix. -/
theorem tool_failure_becomes_result (ev : String → Except String PyVal)
    (s m : String) (he : ev s = Except.error m) :
    calcWith ev s = "Error: " ++ m ∧
    calcWithReact ev s = "Calculation error: " ++ m := by
  constructor
  · simp [calcWith, he]
  · simp [calcWithReact, he]

/-- C2 witness: on the concrete input ")" the modelled `eval` raises a
syntax error and both calculate tools return the formatted description. -/
theorem tool_failure_becomes_result_witness :
    pyEval ")" = Except.error "invalid syntax" ∧
    FunctionCalling.calculate ")" = "Error: " ++ "invalid syntax" ∧
    ReactDemo.calculate ")" = "Calculation error: " ++ "invalid syntax" :=
  ⟨by decide,
   tool_failure_becomes_result pyEval ")" "invalid syntax" (by decide)⟩

/-- C3: when the backend call raises during a turn, the loop prints an
error description carrying the exception text and continues with the
remaining input; the continuation runs on the same history `h`, so the
next send on the session still sees the prior conversation history
intact. -/
theorem backend_error_keeps_session (backend : Backend) (h : History)
    (line e : String) (rest : List String)
    (hx : isExitLine line = false) (hb : isBlankLine line = false)
    (he : backend h line = Except.error e) :
    run backend h (line :: rest) =
      ⟨(run backend h rest).history,
       ("Error: " ++ e ++ "\n") :: (run backend h rest).outputs,
       line :: (run backend h rest).sends⟩ :=
  run_send_err backend h line e rest hx hb he

/-- C3 witness: a backend whose call raises a network failure — the turn
prints the error and the loop goes on with the same (empty) history. -/
theorem backend_error_keeps_session_witness :
    isExitLine "hello" = false ∧ isBlankLine "hello" = false ∧
    run failBackend [] ["hello"] =
      ⟨(run failBackend [] []).history,
       ("Error: " ++ "network unreachable" ++ "\n") ::
         (run failBackend [] []).outputs,
       "hello" :: (run failBackend [] []).sends⟩ :=
  ⟨by decide, by decide,
   backend_error_keeps_session failBackend [] "hello" "network unreachable"
     [] (by decide) (by decide) rfl⟩

/-- C4: with a backend that always returns more tool calls, `send`
terminates with IterationBoundExceededError for every configured finite
bound, performing at most `bound` resend cycles rather than looping
unboundedly. -/
theorem send_hits_iteration_bound
    (backend : History → Spec.BackendTurnReply)
    (invoke : Spec.ToolCallRequest → String) (bound : Nat) (h : History)
    (userText : String)
    (halways : ∀ h2, ∃ reqs,
      backend h2 = Spec.BackendTurnReply.toolCalls reqs) :
    Spec.send backend invoke bound h userText =
      Except.error Spec.SessionError.iterationBoundExceeded := by
  unfold Spec.send
  exact sendLoop_always_tools backend invoke halways bound
    (h ++ [⟨Role.user, userText⟩])

/-- A backend that requests another tool call on every round. -/
def loopingBackend : History → Spec.BackendTurnReply :=
  fun _ =>
    Spec.BackendTurnReply.toolCalls [⟨"search_info", [("query", "python")]⟩]

/-- A tool invoker returning a fixed observation. -/
def obsInvoke : Spec.ToolCallRequest → String :=
  fun r => "observation for " ++ r.name

/-- C4 witness: with bound 5 and a backend that always asks for more tool
calls, `send` returns IterationBoundExceededError. -/
theorem send_hits_iteration_bound_witness :
    (∀ h2, ∃ reqs,
      loopingBackend h2 = Spec.BackendTurnReply.toolCalls reqs) ∧
    Spec.send loopingBackend obsInvoke 5 [] "What is 15 * 24?" =
      Except.error Spec.SessionError.iterationBoundExceeded :=
  ⟨fun _ => ⟨_, rfl⟩,
   send_hits_iteration_bound loopingBackend obsInvoke 5 [] "What is 15 * 24?"
     (fun _ => ⟨_, rfl⟩)⟩

/-- C5: the message history is append-only and order-preserving — after a
sequence of successful sent turns the history is exactly the initial
history followed by each turn's appended user/reply messages in turn
order, and for every backend, initial history and input sequence the
initial history is left in place as a prefix of the final history (no
removal, reordering or deduplication of earlier messages). -/
theorem history_append_only (f : History → String → String) (h : History)
    (lines : List String)
    (hl : ∀ s ∈ lines, isExitLine s = false ∧ isBlankLine s = false) :
    (run (okBackend f) h lines).history = h ++ expectedMsgs f h lines ∧
    ∀ (b : Backend) (h0 : History) (ls : List String),
      h0 <+: (run b h0 ls).history :=
  ⟨run_ok_history f lines h hl, fun b h0 ls => run_history_pre b ls h0⟩

/-- A backend reply function that always answers "ok". -/
def constReply : History → String → String := fun _ _ => "ok"

/-- C5 witness: two successful turns append exactly their four messages
in order. -/
theorem history_append_only_witness :
    (∀ s ∈ ["hi", "there"], isExitLine s = false ∧ isBlankLine s = false) ∧
    ((run (okBackend constReply) [] ["hi", "there"]).history =
       [] ++ expectedMsgs constReply [] ["hi", "there"] ∧
     ∀ (b : Backend) (h0 : History) (ls : List String),
       h0 <+: (run b h0 ls).history) :=
  ⟨by decide, history_append_only constReply [] ["hi", "there"] (by decide)⟩

/-- C6: for every sequence of tools with pairwise-distinct names,
registering them all succeeds in order and `resolve` returns the exact
Tool registered under each name; registering any further tool whose name
already exists fails with DuplicateToolError under the default
reject-duplicates policy. -/
theorem registry_unique_names (ts : List Spec.Tool)
    (hnd : (ts.map Spec.Tool.name).Nodup) :
    Spec.registerAll [] ts = Except.ok ts ∧
    (∀ t ∈ ts, Spec.resolve ts t.name = Except.ok t) ∧
    ∀ t2 : Spec.Tool, t2.name ∈ ts.map Spec.Tool.name →
      Spec.register ts t2 = Except.error Spec.RegistryError.duplicateTool :=
  ⟨registerAll_ok ts [] hnd, resolve_registered ts hnd,
   fun t2 hm => register_dup ts t2 hm⟩

/-- C6 witness: the calculate and search_info tools of
function_calling_demo.py registered in order. -/
theorem registry_unique_names_witness :
    ([Spec.calcTool, Spec.searchInfoTool].map Spec.Tool.name).Nodup ∧
    (Spec.registerAll [] [Spec.calcTool, Spec.searchInfoTool] =
       Except.ok [Spec.calcTool, Spec.searchInfoTool] ∧
     (∀ t ∈ [Spec.calcTool, Spec.searchInfoTool],
        Spec.resolve [Spec.calcTool, Spec.searchInfoTool] t.name =
          Except.ok t) ∧
     ∀ t2 : Spec.Tool,
       t2.name ∈ [Spec.calcTool, Spec.searchInfoTool].map Spec.Tool.name →
       Spec.register [Spec.calcTool, Spec.searchInfoTool] t2 =
         Except.error Spec.RegistryError.duplicateTool) :=
  ⟨by decide, registry_unique_names [Spec.calcTool, Spec.searchInfoTool]
    (by decide)⟩

/-- C7: an input line equal, case-insensitively, to exit, quit or bye
makes the loop print the farewell and terminate: the result records no
send at all, on this line or any later one, and the history is left as it
was. -/
theorem exit_terminates_without_send (backend : Backend) (h : History)
    (line : String) (rest : List String) (hx : isExitLine line = true) :
    run backend h (line :: rest) = ⟨h, ["Agent: Goodbye!"], []⟩ :=
  run_exit backend h line rest hx

/-- C7 witness: the upper-case line "EXIT" terminates the loop before a
pending later line is ever processed. -/
theorem exit_terminates_without_send_witness :
    isExitLine "EXIT" = true ∧
    run echoBackend [] ["EXIT", "what is 2 + 2"] =
      ⟨[], ["Agent: Goodbye!"], []⟩ :=
  ⟨by decide,
   exit_terminates_without_send echoBackend [] "EXIT" ["what is 2 + 2"]
     (by decide)⟩

/-- C8: a blank or whitespace-only input line is a no-op iteration — the
loop performs no send for it and simply continues with the remaining
input (the whole run is as if the line had not been typed). -/
theorem blank_line_is_noop (backend : Backend) (h : History)
    (line : String) (rest : List String) (hb : isBlankLine line = true) :
    run backend h (line :: rest) = run backend h rest :=
  run_blank backend h line rest hb

/-- C8 witness: the whitespace-only line "   " changes nothing. -/
theorem blank_line_is_noop_witness :
    isBlankLine "   " = true ∧
    run echoBackend [] ["   "] = run echoBackend [] [] :=
  ⟨by decide, blank_line_is_noop echoBackend [] "   " [] (by decide)⟩

/-- C9: the exit check compares the lowercased line without trimming and
runs before the blank check — every line lowercasing exactly to an exit
word terminates the loop, while " exit " (an exit word surrounded by
whitespace) is not recognized as an exit command and is instead sent to
the backend. -/
theorem exit_check_untrimmed (backend : Backend) (h : History)
    (rest : List String) :
    (∀ line, isExitLine line = true →
       run backend h (line :: rest) = ⟨h, ["Agent: Goodbye!"], []⟩) ∧
    isExitLine " exit " = false ∧
    (run backend h (" exit " :: rest)).sends.head? = some " exit " := by
  refine ⟨fun line hx => run_exit backend h line rest hx, by decide, ?_⟩
  have hx : isExitLine " exit " = false := by decide
  have hb : isBlankLine " exit " = false := by decide
  cases hk : backend h " exit " with
  | ok reply => simp [run_send_ok backend h " exit " reply rest hx hb hk]
  | error e => simp [run_send_err backend h " exit " e rest hx hb hk]

/-- C9 witness: "Bye" exits, while " exit " is sent to the backend. -/
theorem exit_check_untrimmed_witness :
    isExitLine "Bye" = true ∧
    run echoBackend [] ["Bye"] = ⟨[], ["Agent: Goodbye!"], []⟩ ∧
    (run echoBackend [] [" exit "]).sends.head? = some " exit " :=
  ⟨by decide,
   (exit_check_untrimmed echoBackend [] []).1 "Bye" (by decide),
   (exit_check_untrimmed echoBackend [] []).2.2⟩

/-- C10: `search` is a deterministic keyword lookup — it returns the
canned description of the first key among python, ai, gemini (checked in
that fixed order) occurring as a substring of the lowercased query, and
the generic fallback string mentioning the query twice when no key
matches. -/
theorem search_keyword_lookup (q : String) :
    ReactDemo.search q =
      if strIn "python" (pyLower q) then ReactDemo.pythonDesc
      else if strIn "ai" (pyLower q) then ReactDemo.aiDesc
      else if strIn "gemini" (pyLower q) then ReactDemo.geminiDesc
      else "Search results for \x27" ++ q ++ "\x27: Information about " ++ q := by
  unfold ReactDemo.search ReactDemo.searchResults
  cases h1 : strIn "python" (pyLower q) <;>
    cases h2 : strIn "ai" (pyLower q) <;>
      cases h3 : strIn "gemini" (pyLower q) <;>
        simp [List.find?_cons, h1, h2, h3]
